import Mathlib

/-!
# Verification of the QuickConvert client-side converters

Shallow embedding of the conversion logic in
`assets/js/converters/converter-svg.js`, `converter-image-pdf.js`,
`converter-webp.js` and `converter-heic.js` (each of the last three files
contains two variants of the converter; we embed both where a claim refers
to both).  JavaScript numbers are modelled as exact rationals (`ℚ`); the
inputs relevant to the claims are small decimal literals on which IEEE
doubles are exact.  Browser and vendor primitives that the scripts call
(object URLs, jsPDF page sizing) are modelled explicitly and marked as
such in their doc comments.  The shared `app-common-ui.js` helpers
(`setStatus`, `showToast`, `toggleProgress`, `setButtonLoading`) live in
the sources as the third segment of `assets/js/app-nav.js`; their effects
on the fields the theorems inspect are inlined into the submit-handler
embeddings (`setStatus` writes the message verbatim with a variant class,
`showToast` appends a toast, `toggleProgress` shows/hides the progress
wrapper, `setButtonLoading` disables/re-enables the submit button).
-/

namespace QuickConvert

/-! ## JavaScript numeric and string primitives -/

/-- `Math.round` on an exact rational: round half toward `+∞`. -/
def jsRound (x : ℚ) : Int := Int.floor (x + 1/2)

/-- Longest prefix of decimal digits of a character list, with the rest. -/
def leadingDigits : List Char → List Char × List Char
  | [] => ([], [])
  | c :: cs =>
    if c.isDigit then
      let (d, r) := leadingDigits cs
      (c :: d, r)
    else ([], c :: cs)

/-- Value of a list of decimal digits. -/
def digitsToNat (ds : List Char) : Nat :=
  ds.foldl (fun a c => a * 10 + (c.toNat - 48)) 0

/-- The number matched by the regex `^([0-9]*\.?[0-9]+)` at the start of a
character list, if any (used by `parseLen` in `converter-svg.js`). -/
def leadingDecimal (cs : List Char) : Option ℚ :=
  let (d1, r1) := leadingDigits cs
  match r1 with
  | '.' :: r2 =>
    let (d2, _) := leadingDigits r2
    if d2.isEmpty then
      if d1.isEmpty then none else some (digitsToNat d1 : ℚ)
    else
      some ((digitsToNat d1 : ℚ) + (digitsToNat d2 : ℚ) / 10 ^ d2.length)
  | _ => if d1.isEmpty then none else some (digitsToNat d1 : ℚ)

/-- Optional exponent suffix of a JS decimal literal (`e`/`E`, optional
sign, digits); `none` models `NaN`. -/
def jsExponent (m : ℚ) : List Char → Option ℚ
  | [] => some m
  | c :: rest =>
    if c = 'e' ∨ c = 'E' then
      let (neg, rest2) : Bool × List Char :=
        match rest with
        | '+' :: rr => (false, rr)
        | '-' :: rr => (true, rr)
        | rr => (false, rr)
      let (ds, r3) := leadingDigits rest2
      if ds.isEmpty ∨ ¬r3.isEmpty then none
      else some (if neg then m / 10 ^ digitsToNat ds else m * 10 ^ digitsToNat ds)
    else none

/-- Unsigned part of JS `Number(...)` on a decimal string; `none` = `NaN`. -/
def jsNumberUnsigned (cs : List Char) : Option ℚ :=
  let (d1, r1) := leadingDigits cs
  match r1 with
  | '.' :: rr =>
    let (d2, r2) := leadingDigits rr
    if d1.isEmpty ∧ d2.isEmpty then none
    else jsExponent ((digitsToNat d1 : ℚ) + (digitsToNat d2 : ℚ) / 10 ^ d2.length) r2
  | _ => if d1.isEmpty then none else jsExponent (digitsToNat d1 : ℚ) r1

/-- JS `Number(str)` on a whitespace-free token, restricted to finite
decimal literals: `""` is `0`, an optional sign is allowed, and `none`
models `NaN` (and non-finite values, which `Number.isFinite` filters out
exactly like `NaN` at the single use site). -/
def jsNumber (cs : List Char) : Option ℚ :=
  match cs with
  | [] => some 0
  | '+' :: rest => if rest.isEmpty then none else jsNumberUnsigned rest
  | '-' :: rest => if rest.isEmpty then none else (jsNumberUnsigned rest).map Neg.neg
  | _ => jsNumberUnsigned cs

/-- A separator character for the regex `/[\s,]+/`. -/
def isSep (c : Char) : Bool := c = ',' || c.isWhitespace

/-- `String.prototype.split(/[\s,]+/)`: fields between maximal runs of
separator characters (a leading or trailing run yields an empty field). -/
def splitFieldsAux : List Char → List Char → Bool → List (List Char)
  | [], cur, _ => [cur.reverse]
  | c :: cs, cur, inSep =>
    if isSep c then
      if inSep then splitFieldsAux cs cur true
      else cur.reverse :: splitFieldsAux cs [] true
    else splitFieldsAux cs (c :: cur) false

def splitFields (cs : List Char) : List (List Char) :=
  splitFieldsAux cs [] false

/-! ## `parseSvgSize` (converter-svg.js, lines 92-132) -/

/-- Attributes of the `<svg>` element, as returned by `getAttribute`
(`none` = attribute absent). -/
structure SvgAttrs where
  width : Option String
  height : Option String
  viewBox : Option String
deriving DecidableEq, Repr

/-- Result of `DOMParser` + `querySelector("svg")`: either no `<svg>`
element (also covering the `catch` branch) or one with its attributes. -/
inductive SvgDoc
  | noSvg
  | svg (attrs : SvgAttrs)
deriving DecidableEq, Repr

/-- `parseLen` from `parseSvgSize`: `null`/empty strings are falsy, else
trim and match the leading decimal. -/
def parseLen (v : Option String) : Option ℚ :=
  match v with
  | none => none
  | some s => if s = "" then none else leadingDecimal s.trim.data

/-- Truthiness of a JS number-or-null: `null`, `0` (and `NaN`) are falsy. -/
def jsTruthyQ (x : Option ℚ) : Bool :=
  match x with
  | none => false
  | some v => v ≠ 0

/-- `x || d` for a JS number-or-null `x`. -/
def jsOr (x : Option ℚ) (d : ℚ) : ℚ :=
  match x with
  | none => d
  | some v => if v = 0 then d else v

/-- `vbAttr.trim().split(/[\s,]+/).map(Number).filter(Number.isFinite)`. -/
def viewBoxParts (vb : String) : List ℚ :=
  (splitFields vb.trim.data).filterMap jsNumber

/-- `Math.max(1, Math.min(x, 20000))`. -/
def clampDim (x : ℚ) : ℚ := max 1 (min x 20000)

/-- `parseSvgSize` (converter-svg.js lines 92-132): width/height
attributes, `viewBox` fallback when either is falsy, 512 default,
clamped to `[1, 20000]`. -/
def parseSvgSize (doc : SvgDoc) : ℚ × ℚ :=
  match doc with
  | .noSvg => (512, 512)
  | .svg a =>
    let width0 := parseLen a.width
    let height0 := parseLen a.height
    let vbTruthy : Bool := match a.viewBox with | none => false | some s => s ≠ ""
    let parts : List ℚ := match a.viewBox with | none => [] | some s => viewBoxParts s
    let useVb : Bool := (!jsTruthyQ width0 || !jsTruthyQ height0) && vbTruthy
      && (parts.length == 4)
    let width1 := if useVb && !jsTruthyQ width0 then some (parts.getD 2 0) else width0
    let height1 := if useVb && !jsTruthyQ height0 then some (parts.getD 3 0) else height0
    (clampDim (jsOr width1 512), clampDim (jsOr height1 512))

/-- Output canvas size in `renderAndExport` (converter-svg.js lines
227-231): `Math.max(1, Math.round(dim * scale))` for each dimension. -/
def renderCanvasSize (intrinsic : ℚ × ℚ) (scale : ℚ) : Int × Int :=
  (max 1 (jsRound (intrinsic.1 * scale)), max 1 (jsRound (intrinsic.2 * scale)))

/-! ## Object URLs

Modelled from the browser: `URL.createObjectURL` returns a fresh
reference and makes it resolvable (live); `URL.revokeObjectURL` makes it
unresolvable.  References are identified by creation order. -/

structure UrlState where
  nextId : Nat
  live : List Nat
deriving DecidableEq, Repr

/-- Modelled from the browser: `URL.createObjectURL(blob)`. -/
def createObjectURL (s : UrlState) : Nat × UrlState :=
  (s.nextId, ⟨s.nextId + 1, s.nextId :: s.live⟩)

/-- Modelled from the browser: `URL.revokeObjectURL(u)`. -/
def revokeObjectURL (u : Nat) (s : UrlState) : UrlState :=
  ⟨s.nextId, s.live.erase u⟩

/-- Well-formedness of the modular image-pdf converter's object-URL
ownership: the live references are exactly the tracked
`currentObjectUrl`, and every live reference was created earlier than
the next fresh id. -/
def UrlInv (live : List Nat) (current : Option Nat) (nextId : Nat) : Prop :=
  live = current.toList ∧ ∀ u ∈ live, u < nextId

/-! ## Files -/

/-- A `File` as the converters inspect it: `name`, `size` (bytes) and
MIME `type`. -/
structure JFile where
  name : String
  size : Nat
  type : String
deriving DecidableEq, Repr

/-- `MAX_SIZE = 20 * 1024 * 1024` (20 MB), shared by the webp, heic and
modular image-pdf converters. -/
def MAX_SIZE : Nat := 20 * 1024 * 1024

/-- `p.data.isPrefixOf s.data`, modelling `String.prototype.startsWith`
on exact characters (kernel-friendly replacement for `String.startsWith`). -/
def strStartsWith (s p : String) : Bool := p.data.isPrefixOf s.data

/-! ## Effective encoding quality (claim C9)

`parseInt(qualityRange.value, 10)` is modelled as `Option Nat`
(`none` = `NaN`) where the source guards against `NaN`, and as `Nat`
where it does not. -/

/-- converter-webp.js lines 250-255: quality for the webp form submit. -/
def webpSubmitQuality (raw : Option Nat) (compressChecked : Bool) : ℚ :=
  let quality : ℚ := match raw with | none => 85/100 | some n => (n : ℚ) / 100
  if !compressChecked then max quality (9/10) else quality

/-- converter-heic.js lines 174-178 (modular variant): quality for the
heic form submit. -/
def heicSubmitQuality (raw : Option Nat) (compressChecked : Bool) : ℚ :=
  let quality : ℚ := match raw with | none => 9/10 | some n => (n : ℚ) / 100
  if !compressChecked then max quality (95/100) else quality

/-- converter-heic.js lines 625-628 (second variant, `runConversion`):
quality with the compress switch short-circuiting to `1`. -/
def runConversionQuality (raw : Nat) (compressChecked : Bool) : ℚ :=
  let quality : ℚ := (raw : ℚ) / 100
  if !compressChecked then 1 else quality

/-! ## File selection (converter-image-pdf.js modular variant,
`handleFileSelection`, lines 590-689; converter-webp.js
`handleFileSelect`, lines 153-200; converter-heic.js `handleFileSelect`,
lines 96-132) -/

/-- One toast notification: message and severity. -/
abbrev Toast := String × String

/-- The classification loop at the top of `handleFileSelection`
(lines 591-610): split the offered files into images and PDFs, dropping
oversized files and unsupported types with a warning toast each. -/
def selLoop : List JFile → List JFile × List JFile × List Toast
  | [] => ([], [], [])
  | f :: rest =>
    let r := selLoop rest
    if f.size > MAX_SIZE then
      (r.1, r.2.1, ("File \"" ++ f.name ++ "\" is larger than 20 MB and will be ignored.", "warning") :: r.2.2)
    else if f.type = "application/pdf" then
      (r.1, f :: r.2.1, r.2.2)
    else if f.type ≠ "" ∧ strStartsWith f.type "image/" then
      (f :: r.1, r.2.1, r.2.2)
    else
      (r.1, r.2.1, ("Unsupported file type: " ++ f.name, "warning") :: r.2.2)

/-- A file the classification loop rejects: over the 20 MB limit, or
neither a PDF nor an `image/*` type. -/
def rejectedFile (f : JFile) : Prop :=
  f.size > MAX_SIZE ∨ (f.type ≠ "application/pdf" ∧ ¬(f.type ≠ "" ∧ strStartsWith f.type "image/"))

/-- State of the modular image-pdf converter that `handleFileSelection`
touches. -/
structure PdfSelState where
  modeValue : String
  selectedFiles : List JFile
  statusMsg : String
  statusKind : String
  toasts : List Toast
  downloadHidden : Bool
deriving DecidableEq, Repr

/-- `isPdfToImagesMode` (converter-image-pdf.js line 489). -/
def isPdfToImagesMode (val : String) : Bool := val = "PDF-to-JPG/PNG"

/-- Shared tail of the accepting paths of `handleFileSelection`
(lines 682-688): render summary, hide previous download, set status.
`updateModeUI`'s intermediate status write is overwritten here. -/
def finishSelection (σ : PdfSelState) (files : List JFile) : PdfSelState :=
  { σ with selectedFiles := files, downloadHidden := true,
           statusMsg := "Files selected. Ready to convert.", statusKind := "muted" }

/-- `handleFileSelection` (converter-image-pdf.js lines 590-689). -/
def handleFileSelection (files : List JFile) (σ : PdfSelState) : PdfSelState :=
  let images := (selLoop files).1
  let pdfs := (selLoop files).2.1
  let newToasts := (selLoop files).2.2
  let σ := { σ with toasts := σ.toasts ++ newToasts }
  if images.length = 0 ∧ pdfs.length = 0 then
    { σ with statusMsg := "No supported files selected.", statusKind := "error" }
  else if σ.modeValue = "Detect_automatically" then
    if pdfs.length > 0 ∧ images.length = 0 then
      finishSelection { σ with modeValue := "PDF-to-JPG/PNG" } (pdfs.take 1)
    else if images.length > 0 ∧ pdfs.length = 0 then
      let newMode := if (images.headD ⟨"", 0, ""⟩).type = "image/png"
        then "PNG-to-PDF" else "JPG/JPEG_to-PDF"
      finishSelection { σ with modeValue := newMode } images
    else
      { σ with
        toasts := σ.toasts ++ [("Mixed PDF and images are not supported in auto mode. Please select only images or only a PDF.", "warning")],
        statusMsg := "Mixed content detected. Use only images or only a PDF.",
        statusKind := "error" }
  else if isPdfToImagesMode σ.modeValue then
    if pdfs.length = 0 then
      { σ with
        toasts := σ.toasts ++ [("PDF → images mode requires a PDF file. Please select a PDF or change mode.", "warning")],
        statusMsg := "Please select a PDF file.", statusKind := "error" }
    else
      let σ := if pdfs.length > 1
        then { σ with toasts := σ.toasts ++ [("Multiple PDFs selected. Only the first one will be used.", "info")] }
        else σ
      finishSelection σ (pdfs.take 1)
  else
    if images.length = 0 then
      { σ with
        toasts := σ.toasts ++ [("Images → PDF mode requires at least one image. Please select images or change mode.", "warning")],
        statusMsg := "Please select at least one image (JPG, PNG, WebP, GIF, BMP).",
        statusKind := "error" }
    else
      finishSelection σ images

/-- State of the webp converter that `handleFileSelect` touches
(converter-webp.js). -/
structure WebpSelState where
  currentFile : Option JFile
  fromValue : String
  statusMsg : String
  statusKind : String
  toasts : List Toast
  downloadHidden : Bool
deriving DecidableEq, Repr

/-- `mimeToFormat` (converter-webp.js lines 406-413). -/
def webpMimeToFormat (mime : String) : Option String :=
  if mime = "" then none
  else if mime = "image/webp" then some "webp"
  else if mime = "image/jpeg" then some "jpg"
  else if mime = "image/png" then some "png"
  else if mime = "image/gif" then some "gif"
  else none

/-- `handleFileSelect` (converter-webp.js lines 153-200); the temporary
animated-image note (lines 192-199) does not change the modelled fields. -/
def webpHandleFileSelect (file : JFile) (σ : WebpSelState) : WebpSelState :=
  if file.type ≠ "image/webp" ∧ file.type ≠ "image/png" ∧
     file.type ≠ "image/jpeg" ∧ file.type ≠ "image/gif" then
    { σ with toasts := σ.toasts ++ [("Please select a WebP, PNG, JPG or GIF image.", "warning")],
             statusMsg := "Unsupported file type.", statusKind := "error" }
  else if file.size > MAX_SIZE then
    { σ with toasts := σ.toasts ++ [("Selected file is too large (max 20 MB).", "warning")],
             statusMsg := "File size exceeds 20 MB limit.", statusKind := "error" }
  else
    let σ := { σ with currentFile := some file }
    let σ := match webpMimeToFormat file.type with
      | some fmt => if σ.fromValue = "auto" then { σ with fromValue := fmt } else σ
      | none => σ
    { σ with downloadHidden := true,
             statusMsg := "File selected. Ready to convert.", statusKind := "muted" }

/-- `mimeToFormat` (converter-heic.js lines 362-368, modular variant). -/
def heicMimeToFormat (mime : String) : Option String :=
  if mime = "" then none
  else if mime = "image/heic" ∨ mime = "image/heif" then some "heic"
  else if mime = "image/jpeg" then some "jpg"
  else if mime = "image/png" then some "png"
  else none

/-- State of the heic converter that `handleFileSelect` touches
(converter-heic.js modular variant). -/
structure HeicSelState where
  currentFile : Option JFile
  fromValue : String
  statusMsg : String
  statusKind : String
  toasts : List Toast
deriving DecidableEq, Repr

/-- `handleFileSelect` (converter-heic.js lines 96-132, modular variant);
the temporary missing-library note (lines 124-131) does not change the
modelled fields. -/
def heicHandleFileSelect (file : JFile) (σ : HeicSelState) : HeicSelState :=
  if file.type ≠ "image/heic" ∧ file.type ≠ "image/heif" ∧
     file.type ≠ "image/jpeg" ∧ file.type ≠ "image/png" then
    { σ with toasts := σ.toasts ++ [("Please select a HEIC, HEIF, JPG or PNG file.", "warning")],
             statusMsg := "Unsupported file type.", statusKind := "error" }
  else if file.size > MAX_SIZE then
    { σ with toasts := σ.toasts ++ [("Selected file is too large (max 20 MB).", "warning")],
             statusMsg := "File size exceeds 20 MB limit.", statusKind := "error" }
  else
    let σ := { σ with currentFile := some file }
    let σ := match heicMimeToFormat file.type with
      | some fmt => if σ.fromValue = "auto" then { σ with fromValue := fmt } else σ
      | none => σ
    { σ with statusMsg := "File selected. Ready to convert.", statusKind := "muted" }

/-! ## Images → PDF page geometry (claims C2 and C5)

`converter-image-pdf.js` contains two variants of `convertImagesToPdf`:
the first (lines 239-339) and the modular one (lines 874-942). -/

/-- jsPDF page orientation. -/
inductive Orientation
  | landscape
  | portrait
deriving DecidableEq, Repr

/-- A page of the produced document: declared width/height (pt) and the
orientation it was created with. -/
structure PdfPage where
  pageW : ℚ
  pageH : ℚ
  orient : Orientation
deriving DecidableEq, Repr

/-- Modelled from the vendor jsPDF API: a page created from an explicit
`[width, height]` format array is swapped, if needed, to match the
requested orientation. -/
def jsPdfMkPage (format : ℚ × ℚ) (o : Orientation) : PdfPage :=
  match o with
  | .landscape => if format.1 < format.2 then ⟨format.2, format.1, o⟩ else ⟨format.1, format.2, o⟩
  | .portrait => if format.2 < format.1 then ⟨format.2, format.1, o⟩ else ⟨format.1, format.2, o⟩

/-- A decoded image: pixel width and height. -/
structure JsImage where
  width : ℚ
  height : ℚ
deriving DecidableEq, Repr

/-- Page-creation trace of the first `convertImagesToPdf` variant in
`fit-image` mode (converter-image-pdf.js lines 267-307): the loop over
`imageFiles` with its `!pdf` / `index > 0` branches. -/
def convertImagesToPdfFitV1Loop : List JsImage → Option (List PdfPage) → Nat → Option (List PdfPage)
  | [], acc, _ => acc
  | img :: rest, acc, index =>
    let orientation := if img.width ≥ img.height then Orientation.landscape else Orientation.portrait
    let acc' := match acc with
      | none => some [jsPdfMkPage (img.width, img.height) orientation]
      | some pdf =>
        if index > 0 then some (pdf ++ [jsPdfMkPage (img.width, img.height) orientation])
        else some pdf
    convertImagesToPdfFitV1Loop rest acc' (index + 1)

/-- First variant, `fit-image` mode: pages of the produced document
(`none` models the `throw` on an empty image list, line 241-243). -/
def convertImagesToPdfFitV1 (imgs : List JsImage) : Option (List PdfPage) :=
  if imgs.length = 0 then none else convertImagesToPdfFitV1Loop imgs none 0

/-- Page-creation trace of the modular `convertImagesToPdf` in
`fit-image` mode (converter-image-pdf.js lines 893-913): note the strict
`width > height` test for the orientation. -/
def convertImagesToPdfFitV2Loop : List JsImage → Option (List PdfPage) → Option (List PdfPage)
  | [], acc => acc
  | img :: rest, acc =>
    let orientation := if img.width > img.height then Orientation.landscape else Orientation.portrait
    let acc' := match acc with
      | none => some [jsPdfMkPage (img.width, img.height) orientation]
      | some pdf => some (pdf ++ [jsPdfMkPage (img.width, img.height) orientation])
    convertImagesToPdfFitV2Loop rest acc'

/-- Modular variant, `fit-image` mode: pages of the produced document
(`none` models the `throw new Error("No valid images to convert.")`). -/
def convertImagesToPdfFitV2 (imgs : List JsImage) : Option (List PdfPage) :=
  convertImagesToPdfFitV2Loop imgs none

/-- A4 page size in points, `sizes.a4 = [595.28, 841.89]`
(converter-image-pdf.js lines 251-254). -/
def a4W : ℚ := 59528/100
def a4H : ℚ := 84189/100

/-- Letter page size in points, `sizes.letter = [612, 792]`. -/
def letterW : ℚ := 612
def letterH : ℚ := 792

/-- Drawn image rectangle in the first `convertImagesToPdf` variant
(converter-image-pdf.js lines 309-318): margin 20, fit to `maxWidth`,
shrink to `maxHeight` if too tall. -/
def drawRectV1 (pageWidth pageHeight imgWidth imgHeight : ℚ) : ℚ × ℚ :=
  let margin : ℚ := 20
  let maxWidth := pageWidth - margin * 2
  let maxHeight := pageHeight - margin * 2
  let drawWidth := maxWidth
  let drawHeight := imgHeight * maxWidth / imgWidth
  if drawHeight > maxHeight then (imgWidth * maxHeight / imgHeight, maxHeight)
  else (drawWidth, drawHeight)

/-- Placement `x = (pageWidth - drawWidth) / 2`, `y = (pageHeight -
drawHeight) / 2` (lines 320-321 and 930-931, identical in both variants). -/
def drawPos (pageWidth pageHeight drawWidth drawHeight : ℚ) : ℚ × ℚ :=
  ((pageWidth - drawWidth) / 2, (pageHeight - drawHeight) / 2)

/-- Drawn image rectangle in the modular `convertImagesToPdf` for fixed
page sizes (converter-image-pdf.js lines 921-928): margin 40 and a scale
ratio capped at 1. -/
def renderRectV2 (pageWidth pageHeight width height : ℚ) : ℚ × ℚ :=
  let margin : ℚ := 40
  let maxW := pageWidth - margin * 2
  let maxH := pageHeight - margin * 2
  let ratio := min (min (maxW / width) (maxH / height)) 1
  (width * ratio, height * ratio)

/-! ## Submission state machines (claims C3, C6, C8)

Each form-submit handler is embedded as a state-transition function.
The asynchronous conversion routine inside the `try` block is
parameterised by its outcome `res : Except String Blob` (`.error msg`
models a thrown error whose `message` is `msg`; the `throw` on a null
blob is one such outcome). -/

/-- An abstract binary payload (identity only). -/
abbrev Blob := Nat

/-! ### SVG converter (converter-svg.js) -/

/-- The parts of the SVG converter page state that `renderAndExport`,
`setWorking`, `hideDownload` and `showDownload` touch.  The page has no
toast system; `toasts` is included to record that no notification is
ever produced. -/
structure SvgState where
  statusMsg : String
  convertDisabled : Bool
  resetDisabled : Bool
  fileInputDisabled : Bool
  toFormatDisabled : Bool
  spinnerHidden : Bool
  progressHidden : Bool
  downloadHidden : Bool
  downloadHref : Option Nat
  lastConvSet : Bool
  toasts : List Toast
  urls : UrlState
deriving DecidableEq, Repr

/-- `setWorking` (converter-svg.js lines 56-64). -/
def setWorking (isWorking : Bool) (σ : SvgState) : SvgState :=
  { σ with convertDisabled := isWorking, resetDisabled := isWorking,
           fileInputDisabled := isWorking, toFormatDisabled := isWorking,
           spinnerHidden := !isWorking, progressHidden := !isWorking }

/-- `hideDownload` (converter-svg.js lines 66-69). -/
def svgHideDownload (σ : SvgState) : SvgState :=
  { σ with downloadHidden := true, downloadHref := none }

/-- `showDownload` (converter-svg.js lines 71-77): creates the object
URL for the result — without revoking any previous one. -/
def svgShowDownload (σ : SvgState) : SvgState :=
  let (url, us) := createObjectURL σ.urls
  { σ with urls := us, downloadHref := some url, downloadHidden := false }

/-- `renderAndExport` (converter-svg.js lines 208-283).  `hasFile` is
the guard `currentFile && currentSvgText`; `res` is the outcome of the
conversion work inside the `try`. -/
def svgRenderAndExport (hasFile : Bool) (res : Except String Blob) (σ : SvgState) : SvgState :=
  if !hasFile then { σ with statusMsg := "Please select an SVG file first." }
  else
    let σ := setWorking true (svgHideDownload σ)
    match res with
    | .ok _ =>
      let σ := svgShowDownload σ
      let σ := { σ with lastConvSet := true,
                        statusMsg := "Done. Your file is ready to download." }
      setWorking false σ
    | .error msg =>
      let σ := { σ with statusMsg := "Error: " ++ (if msg = "" then "Unknown error" else msg) }
      setWorking false σ

/-! ### WebP converter form submit (converter-webp.js lines 230-314) -/

/-- The parts of the webp converter page state that the submit handler
touches.  `btnLoading` models `setButtonLoading` (app-common-ui.js,
inside `assets/js/app-nav.js`: disables the submit button and swaps its
label while loading, re-enables it when done); `progressShown` models
`toggleProgress` (same file: toggles `d-none` on the progress wrapper);
`statusMsg`/`statusKind` model `setStatus` (writes the message verbatim
to the status element with a variant class); `toasts` models
`showToast` (appends a toast notification). -/
structure WebpUiState where
  currentFile : Option JFile
  statusMsg : String
  statusKind : String
  toasts : List Toast
  btnLoading : Bool
  progressShown : Bool
  downloadHidden : Bool
  downloadHref : Option Nat
  hintHidden : Bool
  currentObjectUrl : Option Nat
  lastConvSet : Bool
  autoClicks : Nat
  urls : UrlState
deriving DecidableEq, Repr

/-- The webp form submit handler (converter-webp.js lines 230-314). -/
def webpSubmit (toFormat : String) (canEncodeWebP : Bool) (res : Except String Blob)
    (σ : WebpUiState) : WebpUiState :=
  match σ.currentFile with
  | none => { σ with toasts := σ.toasts ++ [("Please select a file first.", "warning")] }
  | some _ =>
    if toFormat = "webp" ∧ !canEncodeWebP then
      let msg := "This browser does not support WebP encoding via Canvas. Try using JPG or PNG as the target format."
      { σ with toasts := σ.toasts ++ [(msg, "error")],
               statusMsg := msg, statusKind := "error" }
    else
      let σ := { σ with btnLoading := true, progressShown := true,
                        statusMsg := "Converting image...", statusKind := "muted" }
      let σ := match res with
        | .ok _ =>
          let σ := match σ.currentObjectUrl with
            | some u => { σ with urls := revokeObjectURL u σ.urls }
            | none => σ
          let (url, us) := createObjectURL σ.urls
          { σ with urls := us, currentObjectUrl := some url,
                   downloadHref := some url, downloadHidden := false, hintHidden := false,
                   autoClicks := σ.autoClicks + 1, lastConvSet := true,
                   statusMsg := "Conversion successful!", statusKind := "success",
                   toasts := σ.toasts ++ [("Image converted successfully.", "success")] }
        | .error msg =>
          { σ with statusMsg := (if msg = "" then "Error during conversion." else msg),
                   statusKind := "error",
                   toasts := σ.toasts ++ [("Conversion failed.", "error")] }
      { σ with btnLoading := false, progressShown := false }

/-! ### Modular image-pdf converter form submit
(converter-image-pdf.js lines 767-856) -/

/-- The parts of the modular image-pdf page state that the submit
handler and `applyDownloadBlob` touch (the shared `app-common-ui.js`
helpers are inlined exactly as for `WebpUiState`). -/
structure PdfModState where
  selectedFiles : List JFile
  statusMsg : String
  statusKind : String
  toasts : List Toast
  btnLoading : Bool
  progressShown : Bool
  downloadHidden : Bool
  downloadHref : Option Nat
  currentObjectUrl : Option Nat
  lastConvSet : Bool
  autoClicks : Nat
  urls : UrlState
deriving DecidableEq, Repr

/-- `applyDownloadBlob` (converter-image-pdf.js lines 1051-1069):
revokes the previous object URL, creates the new one, publishes the
link, auto-clicks it. -/
def applyDownloadBlob (σ : PdfModState) : PdfModState :=
  let σ := match σ.currentObjectUrl with
    | some u => { σ with urls := revokeObjectURL u σ.urls }
    | none => σ
  let (url, us) := createObjectURL σ.urls
  { σ with urls := us, currentObjectUrl := some url,
           downloadHref := some url, downloadHidden := false,
           autoClicks := σ.autoClicks + 1 }

/-- The modular image-pdf form submit handler (converter-image-pdf.js
lines 767-856).  `pdfToImages` is `isPdfToImagesMode(modeSelect.value)`;
`targetFormat` is the `to-format` select value; `res` the outcome of the
conversion call inside the `try`. -/
def pdfModSubmit (pdfToImages : Bool) (targetFormat : String) (res : Except String Blob)
    (σ : PdfModState) : PdfModState :=
  if σ.selectedFiles.length = 0 then
    { σ with toasts := σ.toasts ++ [("Please select some files first.", "warning")] }
  else
    let σ := { σ with btnLoading := true, progressShown := true }
    let σ :=
      if !pdfToImages then
        let σ :=
          if targetFormat ≠ "pdf" then
            let msg := "Images → PDF mode can only produce a PDF file. Target format adjusted to PDF."
            { σ with toasts := σ.toasts ++ [(msg, "info")],
                     statusMsg := msg, statusKind := "warning" }
          else { σ with statusMsg := "Converting images to a multi-page PDF...",
                        statusKind := "muted" }
        match res with
        | .ok _ =>
          let σ := applyDownloadBlob σ
          { σ with statusMsg := "PDF generated successfully!", statusKind := "success",
                   toasts := σ.toasts ++ [("PDF generated successfully.", "success")],
                   lastConvSet := true }
        | .error msg =>
          { σ with statusMsg := (if msg = "" then "Conversion failed." else msg),
                   statusKind := "error",
                   toasts := σ.toasts ++ [("Conversion failed.", "error")] }
      else
        if targetFormat = "pdf" then
          let msg := "PDF → images mode requires JPG or PNG as target format."
          { σ with toasts := σ.toasts ++ [(msg, "warning")],
                   statusMsg := msg, statusKind := "warning" }
        else
          let σ := { σ with statusMsg := "Converting first PDF page to image...",
                            statusKind := "muted" }
          match res with
          | .ok _ =>
            let σ := applyDownloadBlob σ
            { σ with toasts := σ.toasts ++ [("PDF page exported as image.", "success")],
                     statusMsg := "Image generated successfully!", statusKind := "success",
                     lastConvSet := true }
          | .error msg =>
            { σ with statusMsg := (if msg = "" then "Conversion failed." else msg),
                     statusKind := "error",
                     toasts := σ.toasts ++ [("Conversion failed.", "error")] }
    { σ with btnLoading := false, progressShown := false }

/-! ### First-variant image-pdf converter form submit
(converter-image-pdf.js lines 399-433) -/

/-- The parts of the first-variant image-pdf page state that the submit
handler touches (`toggleLoading`, lines 113-123, is inlined in the
transitions). -/
structure PdfV1State where
  selectedFiles : List JFile
  statusMsg : String
  convertDisabled : Bool
  spinnerHidden : Bool
  progressHidden : Bool
  downloadHidden : Bool
  downloadHref : Option Nat
  lastConvSet : Bool
  urls : UrlState
deriving DecidableEq, Repr

/-- `toggleLoading` (converter-image-pdf.js lines 113-123). -/
def toggleLoading (isLoading : Bool) (σ : PdfV1State) : PdfV1State :=
  { σ with spinnerHidden := !isLoading, convertDisabled := isLoading,
           progressHidden := !isLoading }

/-- The first-variant form submit handler (converter-image-pdf.js lines
399-433) dispatching to the first `convertImagesToPdf` (mode
`image-to-pdf`): on success that routine creates the result object URL
(without revoking a previous one, lines 328-338) and publishes the
link; on a thrown error the handler prefixes the message with
`Error: ` and hides the link. -/
def pdfV1Submit (mode : String) (res : Except String Blob) (σ : PdfV1State) : PdfV1State :=
  if σ.selectedFiles.length = 0 then
    { σ with statusMsg := "Please select at least one file first." }
  else
    let σ := toggleLoading true σ
    let σ := { σ with statusMsg := "Preparing conversion..." }
    let σ :=
      if mode = "image-to-pdf" then
        match res with
        | .ok _ =>
          let (url, us) := createObjectURL σ.urls
          { σ with urls := us, downloadHref := some url, downloadHidden := false,
                   lastConvSet := true,
                   statusMsg := "PDF ready. Click Download result to save." }
        | .error msg =>
          { σ with statusMsg := "Error: " ++ (if msg = "" then "conversion failed." else msg),
                   downloadHidden := true }
      else if mode = "pdf-to-image" then
        -- convertPdfToImages (lines 342-395): each page's URL is created
        -- and revoked within the loop (no net live reference), the
        -- download link stays hidden.
        match res with
        | .ok _ =>
          { σ with downloadHidden := true, lastConvSet := true,
                   statusMsg := "All pages exported as images (downloaded one by one)." }
        | .error msg =>
          { σ with statusMsg := "Error: " ++ (if msg = "" then "conversion failed." else msg),
                   downloadHidden := true }
      else
        -- any other mode value throws "Unsupported mode." inside the try
        { σ with statusMsg := "Error: Unsupported mode.", downloadHidden := true }
    toggleLoading false σ

/-! ## Helper lemmas -/

theorem clampDim_bounds (x : ℚ) : 1 ≤ clampDim x ∧ clampDim x ≤ 20000 := by
  refine ⟨le_max_left _ _, max_le (by norm_num) (min_le_right _ _)⟩

theorem parseSvgSize_bounds (doc : SvgDoc) :
    1 ≤ (parseSvgSize doc).1 ∧ (parseSvgSize doc).1 ≤ 20000 ∧
    1 ≤ (parseSvgSize doc).2 ∧ (parseSvgSize doc).2 ≤ 20000 := by
  cases doc with
  | noSvg => simp only [parseSvgSize]; norm_num
  | svg a =>
    simp only [parseSvgSize]
    exact ⟨(clampDim_bounds _).1, (clampDim_bounds _).2,
           (clampDim_bounds _).1, (clampDim_bounds _).2⟩

theorem jsRound_intCast (w : ℤ) : jsRound (w : ℚ) = w := by
  unfold jsRound
  rw [Int.floor_int_add]
  have : ⌊(1 : ℚ)/2⌋ = 0 := by
    rw [Int.floor_eq_zero_iff]
    constructor <;> norm_num
  rw [this, add_zero]

theorem jsRound_ge_one {x : ℚ} (h : 1 ≤ x) : 1 ≤ jsRound x := by
  unfold jsRound
  have : (1 : ℚ) ≤ x + 1/2 := by linarith
  exact_mod_cast Int.le_floor.mpr (by exact_mod_cast this)

theorem parseLen_none : parseLen none = none := rfl

theorem jsTruthyQ_none : jsTruthyQ none = false := rfl

theorem jsTruthyQ_some_zero : jsTruthyQ (some 0) = false := by simp [jsTruthyQ]

theorem jsOr_none (d : ℚ) : jsOr none d = d := rfl

theorem jsOr_some_zero (d : ℚ) : jsOr (some 0) d = d := by simp [jsOr]

end QuickConvert

namespace QuickConvert

/-! ## Claim C1 -/

/-- C1 (counterexample): the claim "at scale=1 the output canvas has
exactly those dimensions" is false as stated: for `width="100.5"
height="200"` the parsed, clamped dimensions are `(100.5, 200)` but the
output canvas is `101×200` (`Math.round` is applied). -/
theorem C1_counterexample :
    ¬(((renderCanvasSize (parseSvgSize (.svg ⟨some "100.5", some "200", none⟩)) 1).1 : ℚ)
        = (parseSvgSize (.svg ⟨some "100.5", some "200", none⟩)).1) := by
  have h1 : parseSvgSize (.svg ⟨some "100.5", some "200", none⟩) = (201/2, 200) := by
    with_unfolding_all rfl
  have h2 : renderCanvasSize (201/2, 200) 1 = (101, 200) := by
    with_unfolding_all rfl
  rw [h1, h2]
  norm_num

/-- C1 (amended): dimensions are parsed from the `width`/`height`
attributes, fall back to the `viewBox`, then to 512, and are clamped to
`[1, 20000]` (including the spec's three examples and clamping above
20000); at scale 1 the output canvas has those dimensions rounded to the
nearest integer — hence exactly those dimensions whenever they are
integral, as in the examples. -/
theorem C1_svg_dimensions :
    (∀ doc, 1 ≤ (parseSvgSize doc).1 ∧ (parseSvgSize doc).1 ≤ 20000 ∧
            1 ≤ (parseSvgSize doc).2 ∧ (parseSvgSize doc).2 ≤ 20000) ∧
    parseSvgSize (.svg ⟨some "300", some "200", none⟩) = (300, 200) ∧
    parseSvgSize (.svg ⟨none, none, some "0 0 100 50"⟩) = (100, 50) ∧
    parseSvgSize (.svg ⟨none, none, none⟩) = (512, 512) ∧
    parseSvgSize (.svg ⟨some "30000", some "200", none⟩) = (20000, 200) ∧
    (∀ doc, renderCanvasSize (parseSvgSize doc) 1 =
      (jsRound (parseSvgSize doc).1, jsRound (parseSvgSize doc).2)) ∧
    (∀ doc (w h : ℤ), parseSvgSize doc = ((w : ℚ), (h : ℚ)) →
      renderCanvasSize (parseSvgSize doc) 1 = (w, h)) := by
  refine ⟨parseSvgSize_bounds, ?_, ?_, ?_, ?_, ?_, ?_⟩
  · with_unfolding_all rfl
  · with_unfolding_all rfl
  · with_unfolding_all rfl
  · with_unfolding_all rfl
  · intro doc
    obtain ⟨h1, _, h2, _⟩ := parseSvgSize_bounds doc
    unfold renderCanvasSize
    rw [mul_one, mul_one,
        max_eq_right (jsRound_ge_one h1), max_eq_right (jsRound_ge_one h2)]
  · intro doc w h he
    obtain ⟨h1, _, h2, _⟩ := parseSvgSize_bounds doc
    unfold renderCanvasSize
    rw [he] at h1 h2 ⊢
    simp only [Prod.fst, Prod.snd] at h1 h2 ⊢
    simp only [mul_one]
    rw [jsRound_intCast, jsRound_intCast]
    have hw : 1 ≤ w := by exact_mod_cast h1
    have hh : 1 ≤ h := by exact_mod_cast h2
    rw [max_eq_right hw, max_eq_right hh]

/-- C1 (witness): the amended theorem applied to the `width="300"
height="200"` document. -/
theorem C1_witness :
    parseSvgSize (.svg ⟨some "300", some "200", none⟩) = (((300 : ℤ) : ℚ), ((200 : ℤ) : ℚ)) ∧
    renderCanvasSize (parseSvgSize (.svg ⟨some "300", some "200", none⟩)) 1 = (300, 200) := by
  refine ⟨by with_unfolding_all rfl, ?_⟩
  exact C1_svg_dimensions.2.2.2.2.2.2 (.svg ⟨some "300", some "200", none⟩) 300 200
    (by with_unfolding_all rfl)

/-! ## Claim C10 -/

/-- C10 (counterexample): a zero-valued `width` attribute can yield an
output width of exactly 1 — via the fallback: with `width="0"` and
`viewBox="0 0 1 50"`, the viewBox width 1 is used and the result is 1,
contradicting "a zero-valued attribute never yields an output dimension
of 1". -/
theorem C10_counterexample :
    parseLen (some "0") = some 0 ∧
    (parseSvgSize (.svg ⟨some "0", some "50", some "0 0 1 50"⟩)).1 = 1 := by
  exact ⟨by with_unfolding_all rfl, by with_unfolding_all rfl⟩

/-- C10 (amended): a `width`/`height` attribute that parses to 0 is
treated exactly as if the attribute were absent (so it is never itself
clamped up to 1): the result equals the result for the attribute-free
document, falling back to a 4-part `viewBox` dimension (clamped) when
present and to 512 otherwise; the output can be 1 only when the
fallback value itself clamps to 1. -/
theorem C10_zero_treated_as_absent :
    (∀ w h vb, parseLen w = some 0 →
      parseSvgSize (.svg ⟨w, h, vb⟩) = parseSvgSize (.svg ⟨none, h, vb⟩)) ∧
    (∀ w h vb, parseLen h = some 0 →
      parseSvgSize (.svg ⟨w, h, vb⟩) = parseSvgSize (.svg ⟨w, none, vb⟩)) ∧
    (∀ w h, parseLen w = some 0 →
      (parseSvgSize (.svg ⟨w, h, none⟩)).1 = 512) ∧
    (parseSvgSize (.svg ⟨some "0", some "50", some "0 0 100 50"⟩)).1 = 100 := by
  have key : ∀ w h vb, parseLen w = some 0 →
      parseSvgSize (.svg ⟨w, h, vb⟩) = parseSvgSize (.svg ⟨none, h, vb⟩) := by
    intro w h vb hw
    simp [parseSvgSize, hw, parseLen_none, jsTruthyQ_none, jsTruthyQ_some_zero,
      jsOr_none, jsOr_some_zero]
    split_ifs <;> simp [jsOr_none, jsOr_some_zero]
  have key2 : ∀ w h vb, parseLen h = some 0 →
      parseSvgSize (.svg ⟨w, h, vb⟩) = parseSvgSize (.svg ⟨w, none, vb⟩) := by
    intro w h vb hh
    simp [parseSvgSize, hh, parseLen_none, jsTruthyQ_none, jsTruthyQ_some_zero,
      jsOr_none, jsOr_some_zero]
    split_ifs <;> simp [jsOr_none, jsOr_some_zero]
  refine ⟨key, key2, ?_, by with_unfolding_all rfl⟩
  intro w h hw
  rw [key w h none hw]
  simp [parseSvgSize, parseLen_none, jsTruthyQ_none, jsOr_none]
  norm_num [clampDim]

/-- C10 (witness): the amended theorem applied at `width="0"`. -/
theorem C10_witness :
    parseLen (some "0") = some 0 ∧
    parseSvgSize (.svg ⟨some "0", some "50", some "0 0 100 50"⟩) =
      parseSvgSize (.svg ⟨none, some "50", some "0 0 100 50"⟩) := by
  refine ⟨by with_unfolding_all rfl, ?_⟩
  exact C10_zero_treated_as_absent.1 (some "0") (some "50") (some "0 0 100 50")
    (by with_unfolding_all rfl)

/-! ## Claim C5 -/

theorem fitV1_loop_eq (imgs : List JsImage) :
    ∀ (pdf : List PdfPage) (index : Nat), 0 < index →
      convertImagesToPdfFitV1Loop imgs (some pdf) index =
        some (pdf ++ imgs.map fun img => jsPdfMkPage (img.width, img.height)
          (if img.width ≥ img.height then Orientation.landscape else Orientation.portrait)) := by
  induction imgs with
  | nil => intro pdf index _; simp [convertImagesToPdfFitV1Loop]
  | cons img rest ih =>
    intro pdf index hidx
    simp only [convertImagesToPdfFitV1Loop, hidx, if_pos]
    rw [ih _ (index + 1) (Nat.succ_pos _)]
    simp

theorem fitV2_loop_eq (imgs : List JsImage) :
    ∀ pdf : List PdfPage,
      convertImagesToPdfFitV2Loop imgs (some pdf) =
        some (pdf ++ imgs.map fun img => jsPdfMkPage (img.width, img.height)
          (if img.width > img.height then Orientation.landscape else Orientation.portrait)) := by
  induction imgs with
  | nil => intro pdf; simp [convertImagesToPdfFitV2Loop]
  | cons img rest ih =>
    intro pdf
    simp only [convertImagesToPdfFitV2Loop]
    rw [ih _]
    simp

/-- C5 (counterexample): for a square 100×100 image the modular variant
creates the page with orientation `portrait` (strict `width > height`
test), not `landscape` as the claim's `width >= height` rule states. -/
theorem C5_counterexample :
    convertImagesToPdfFitV2 [⟨100, 100⟩] = some [⟨100, 100, Orientation.portrait⟩] ∧
    (if (100 : ℚ) ≥ (100 : ℚ) then Orientation.landscape else Orientation.portrait)
      = Orientation.landscape ∧
    Orientation.portrait ≠ Orientation.landscape := by
  refine ⟨by with_unfolding_all rfl, by rw [if_pos le_rfl], by simp⟩

/-- C5 (amended): with page-size `fit-image`, both variants produce
exactly one page per input image, in input order, each with declared
width and height equal to the source image's pixel dimensions; the
orientation is `landscape` when `width >= height` in the first variant
but only when `width > height` (strictly) in the modular variant — the
two differ exactly on square images, whose declared page size is the
same square either way. -/
theorem C5_fit_image_pages :
    (∀ imgs : List JsImage, imgs ≠ [] →
      convertImagesToPdfFitV1 imgs =
        some (imgs.map fun img => jsPdfMkPage (img.width, img.height)
          (if img.width ≥ img.height then Orientation.landscape else Orientation.portrait))) ∧
    (∀ imgs : List JsImage, imgs ≠ [] →
      convertImagesToPdfFitV2 imgs =
        some (imgs.map fun img => jsPdfMkPage (img.width, img.height)
          (if img.width > img.height then Orientation.landscape else Orientation.portrait))) ∧
    (∀ w h : ℚ, jsPdfMkPage (w, h)
        (if w ≥ h then Orientation.landscape else Orientation.portrait) =
      ⟨w, h, if w ≥ h then Orientation.landscape else Orientation.portrait⟩) ∧
    (∀ w h : ℚ, jsPdfMkPage (w, h)
        (if w > h then Orientation.landscape else Orientation.portrait) =
      ⟨w, h, if w > h then Orientation.landscape else Orientation.portrait⟩) ∧
    (∀ (imgs : List JsImage) (pages : List PdfPage),
      convertImagesToPdfFitV1 imgs = some pages → pages.length = imgs.length) ∧
    (∀ (imgs : List JsImage) (pages : List PdfPage),
      convertImagesToPdfFitV2 imgs = some pages → pages.length = imgs.length) := by
  have hv1 : ∀ imgs : List JsImage, imgs ≠ [] →
      convertImagesToPdfFitV1 imgs =
        some (imgs.map fun img => jsPdfMkPage (img.width, img.height)
          (if img.width ≥ img.height then Orientation.landscape else Orientation.portrait)) := by
    intro imgs h
    match imgs with
    | [] => exact absurd rfl h
    | img :: rest =>
      unfold convertImagesToPdfFitV1
      rw [if_neg (by simp)]
      simp only [convertImagesToPdfFitV1Loop]
      rw [fitV1_loop_eq rest _ 1 Nat.one_pos]
      simp
  have hv2 : ∀ imgs : List JsImage, imgs ≠ [] →
      convertImagesToPdfFitV2 imgs =
        some (imgs.map fun img => jsPdfMkPage (img.width, img.height)
          (if img.width > img.height then Orientation.landscape else Orientation.portrait)) := by
    intro imgs h
    match imgs with
    | [] => exact absurd rfl h
    | img :: rest =>
      unfold convertImagesToPdfFitV2
      simp only [convertImagesToPdfFitV2Loop]
      rw [fitV2_loop_eq rest _]
      simp
  refine ⟨hv1, hv2, ?_, ?_, ?_, ?_⟩
  · intro w h
    by_cases hwh : h ≤ w
    · rw [if_pos hwh]
      simp [jsPdfMkPage, not_lt.mpr hwh]
    · rw [if_neg hwh]
      have : ¬h < w := fun hc => hwh hc.le
      simp [jsPdfMkPage, this]
  · intro w h
    by_cases hwh : h < w
    · rw [if_pos hwh]
      simp [jsPdfMkPage, not_lt.mpr hwh.le]
    · rw [if_neg hwh]
      simp [jsPdfMkPage, hwh]
  · intro imgs pages hp
    match imgs with
    | [] => simp [convertImagesToPdfFitV1] at hp
    | img :: rest =>
      rw [hv1 (img :: rest) (by simp)] at hp
      cases hp
      simp
  · intro imgs pages hp
    match imgs with
    | [] => simp [convertImagesToPdfFitV2, convertImagesToPdfFitV2Loop] at hp
    | img :: rest =>
      rw [hv2 (img :: rest) (by simp)] at hp
      cases hp
      simp

/-- C5 (witness): the amended theorem applied to a single 3×2 image. -/
theorem C5_witness :
    convertImagesToPdfFitV1 [⟨3, 2⟩] =
      some (([⟨3, 2⟩] : List JsImage).map fun img => jsPdfMkPage (img.width, img.height)
        (if img.width ≥ img.height then Orientation.landscape else Orientation.portrait)) :=
  C5_fit_image_pages.1 [⟨3, 2⟩] (by simp)

/-! ## Claim C2 -/

theorem drawPos_centered (pageW pageH dW dH margin : ℚ)
    (h1 : dW ≤ pageW - margin * 2) (h2 : dH ≤ pageH - margin * 2) :
    margin ≤ (drawPos pageW pageH dW dH).1 ∧
    (drawPos pageW pageH dW dH).1 + dW ≤ pageW - margin ∧
    margin ≤ (drawPos pageW pageH dW dH).2 ∧
    (drawPos pageW pageH dW dH).2 + dH ≤ pageH - margin ∧
    pageW - ((drawPos pageW pageH dW dH).1 + dW) = (drawPos pageW pageH dW dH).1 ∧
    pageH - ((drawPos pageW pageH dW dH).2 + dH) = (drawPos pageW pageH dW dH).2 := by
  unfold drawPos
  refine ⟨by simp; linarith, by simp; linarith, by simp; linarith, by simp; linarith,
         by simp; ring, by simp; ring⟩

theorem drawRectV1_fits (pageW pageH imgW imgH : ℚ) (hw : 0 < imgW) (hh : 0 < imgH) :
    (drawRectV1 pageW pageH imgW imgH).1 ≤ pageW - 20 * 2 ∧
    (drawRectV1 pageW pageH imgW imgH).2 ≤ pageH - 20 * 2 := by
  dsimp only [drawRectV1]
  split_ifs with hgt
  · refine ⟨?_, le_refl _⟩
    rw [gt_iff_lt, lt_div_iff₀ hw] at hgt
    rw [div_le_iff₀ hh]
    nlinarith
  · exact ⟨le_refl _, le_of_not_lt hgt⟩

theorem renderRectV2_fits (pageW pageH imgW imgH : ℚ) (hw : 0 < imgW) (hh : 0 < imgH) :
    (renderRectV2 pageW pageH imgW imgH).1 ≤ pageW - 40 * 2 ∧
    (renderRectV2 pageW pageH imgW imgH).2 ≤ pageH - 40 * 2 := by
  dsimp only [renderRectV2]
  constructor
  · calc imgW * min (min ((pageW - 40 * 2) / imgW) ((pageH - 40 * 2) / imgH)) 1
        ≤ imgW * ((pageW - 40 * 2) / imgW) :=
          mul_le_mul_of_nonneg_left ((min_le_left _ _).trans (min_le_left _ _)) hw.le
      _ = pageW - 40 * 2 := by rw [mul_comm, div_mul_cancel₀ _ (ne_of_gt hw)]
  · calc imgH * min (min ((pageW - 40 * 2) / imgW) ((pageH - 40 * 2) / imgH)) 1
        ≤ imgH * ((pageH - 40 * 2) / imgH) :=
          mul_le_mul_of_nonneg_left ((min_le_left _ _).trans (min_le_right _ _)) hh.le
      _ = pageH - 40 * 2 := by rw [mul_comm, div_mul_cancel₀ _ (ne_of_gt hh)]

/-- C2 (counterexample): the first `convertImagesToPdf` variant upscales
small images: a 10×10 image on an A4 page is drawn at 555.28×555.28,
far exceeding its own pixel size — so "never exceeds the image's own
pixel width and height" is false for that variant. -/
theorem C2_counterexample :
    (drawRectV1 a4W a4H 10 10).1 = 55528/100 ∧
    ¬((drawRectV1 a4W a4H 10 10).1 ≤ 10) := by
  have h : (drawRectV1 a4W a4H 10 10).1 = 55528/100 := by with_unfolding_all rfl
  exact ⟨h, by rw [h]; norm_num⟩

/-- C2 (amended): for fixed page sizes, both variants draw the image
with its aspect ratio preserved and centered within the fixed margin
(margin 20 in the first variant, 40 in the modular one); the modular
variant additionally caps the scale at 1, so it never upscales, while
the first variant always scales the image to touch the margin box
(upscaling small images). -/
theorem C2_fixed_page_geometry :
    (∀ pageW pageH imgW imgH : ℚ, 0 < imgW → 0 < imgH →
      (renderRectV2 pageW pageH imgW imgH).1 ≤ imgW ∧
      (renderRectV2 pageW pageH imgW imgH).2 ≤ imgH) ∧
    (∀ pageW pageH imgW imgH : ℚ,
      (renderRectV2 pageW pageH imgW imgH).2 * imgW =
        (renderRectV2 pageW pageH imgW imgH).1 * imgH) ∧
    (∀ pageW pageH imgW imgH : ℚ, 0 < imgW → 0 < imgH →
      let r := renderRectV2 pageW pageH imgW imgH
      let p := drawPos pageW pageH r.1 r.2
      40 ≤ p.1 ∧ p.1 + r.1 ≤ pageW - 40 ∧ 40 ≤ p.2 ∧ p.2 + r.2 ≤ pageH - 40 ∧
      pageW - (p.1 + r.1) = p.1 ∧ pageH - (p.2 + r.2) = p.2) ∧
    (∀ pageW pageH imgW imgH : ℚ, 0 < imgW → 0 < imgH →
      (drawRectV1 pageW pageH imgW imgH).2 * imgW =
        (drawRectV1 pageW pageH imgW imgH).1 * imgH) ∧
    (∀ pageW pageH imgW imgH : ℚ, 0 < imgW → 0 < imgH →
      let d := drawRectV1 pageW pageH imgW imgH
      let p := drawPos pageW pageH d.1 d.2
      20 ≤ p.1 ∧ p.1 + d.1 ≤ pageW - 20 ∧ 20 ≤ p.2 ∧ p.2 + d.2 ≤ pageH - 20 ∧
      pageW - (p.1 + d.1) = p.1 ∧ pageH - (p.2 + d.2) = p.2) ∧
    (∀ pageW pageH imgW imgH : ℚ,
      (drawRectV1 pageW pageH imgW imgH).1 = pageW - 20 * 2 ∨
      (drawRectV1 pageW pageH imgW imgH).2 = pageH - 20 * 2) := by
  refine ⟨?_, ?_, ?_, ?_, ?_, ?_⟩
  · intro pageW pageH imgW imgH hw hh
    dsimp only [renderRectV2]
    constructor
    · exact mul_le_of_le_one_right hw.le (min_le_right _ _)
    · exact mul_le_of_le_one_right hh.le (min_le_right _ _)
  · intro pageW pageH imgW imgH
    dsimp only [renderRectV2]
    ring
  · intro pageW pageH imgW imgH hw hh
    obtain ⟨h1, h2⟩ := renderRectV2_fits pageW pageH imgW imgH hw hh
    exact drawPos_centered pageW pageH _ _ 40 h1 h2
  · intro pageW pageH imgW imgH hw hh
    dsimp only [drawRectV1]
    split_ifs with hgt
    · field_simp
      ring
    · field_simp
      ring
  · intro pageW pageH imgW imgH hw hh
    obtain ⟨h1, h2⟩ := drawRectV1_fits pageW pageH imgW imgH hw hh
    exact drawPos_centered pageW pageH _ _ 20 h1 h2
  · intro pageW pageH imgW imgH
    dsimp only [drawRectV1]
    split_ifs with hgt
    · right; rfl
    · left; rfl

/-- C2 (witness): the amended theorem applied to a 100×50 image on an
A4 page in the modular variant. -/
theorem C2_witness :
    (0:ℚ) < 100 ∧ (0:ℚ) < 50 ∧
    ((renderRectV2 a4W a4H 100 50).1 ≤ 100 ∧ (renderRectV2 a4W a4H 100 50).2 ≤ 50) :=
  ⟨by norm_num, by norm_num,
   C2_fixed_page_geometry.1 a4W a4H 100 50 (by norm_num) (by norm_num)⟩

/-! ## Claim C9 -/

/-- C9: with the compress switch checked the effective quality is
exactly `slider/100`; unchecked it is `max(slider/100, 0.95)` in the
modular HEIC variant, exactly 1 in the other HEIC variant, and
`max(slider/100, 0.9)` in the WebP converter. -/
theorem C9_quality_floors :
    (∀ n : Nat, webpSubmitQuality (some n) true = (n : ℚ) / 100) ∧
    (∀ n : Nat, webpSubmitQuality (some n) false = max ((n : ℚ) / 100) (9/10)) ∧
    (∀ n : Nat, heicSubmitQuality (some n) true = (n : ℚ) / 100) ∧
    (∀ n : Nat, heicSubmitQuality (some n) false = max ((n : ℚ) / 100) (95/100)) ∧
    (∀ n : Nat, runConversionQuality n true = (n : ℚ) / 100) ∧
    (∀ n : Nat, runConversionQuality n false = 1) ∧
    (∀ n : Nat, 9/10 ≤ webpSubmitQuality (some n) false) ∧
    (∀ n : Nat, 95/100 ≤ heicSubmitQuality (some n) false) := by
  refine ⟨fun n => ?_, fun n => ?_, fun n => ?_, fun n => ?_, fun n => ?_, fun n => ?_,
         fun n => ?_, fun n => ?_⟩ <;>
    simp [webpSubmitQuality, heicSubmitQuality, runConversionQuality, le_max_right]

/-! ## Claims C4 and C7: file selection -/

theorem selLoop_all_rejected (files : List JFile) (h : ∀ f ∈ files, rejectedFile f) :
    (selLoop files).1 = [] ∧ (selLoop files).2.1 = [] := by
  induction files with
  | nil => simp [selLoop]
  | cons g rest ih =>
    have hg := h g (by simp)
    have hrest := ih fun f hf => h f (List.mem_cons_of_mem _ hf)
    dsimp only [selLoop]
    rcases hg with hsz | ⟨hty, hnim⟩
    · rw [if_pos hsz]
      exact hrest
    · by_cases hsz : g.size > MAX_SIZE
      · rw [if_pos hsz]; exact hrest
      · rw [if_neg hsz, if_neg hty, if_neg hnim]
        exact hrest

theorem selLoop_oversize_not_mem (f : JFile) (files : List JFile) (h : f.size > MAX_SIZE) :
    f ∉ (selLoop files).1 ∧ f ∉ (selLoop files).2.1 := by
  induction files with
  | nil => simp [selLoop]
  | cons g rest ih =>
    dsimp only [selLoop]
    split_ifs with h1 h2 h3
    · exact ih
    · refine ⟨ih.1, ?_⟩
      simp only [List.mem_cons, not_or]
      refine ⟨?_, ih.2⟩
      rintro rfl
      exact h1 h
    · refine ⟨?_, ih.2⟩
      simp only [List.mem_cons, not_or]
      refine ⟨?_, ih.1⟩
      rintro rfl
      exact h1 h
    · exact ih

theorem handleFileSelection_selected_cases (files : List JFile) (σ : PdfSelState) :
    (handleFileSelection files σ).selectedFiles = σ.selectedFiles ∨
    (handleFileSelection files σ).selectedFiles = (selLoop files).1 ∨
    (handleFileSelection files σ).selectedFiles = (selLoop files).2.1.take 1 := by
  dsimp only [handleFileSelection]
  split_ifs <;> simp [finishSelection]

theorem handleFileSelection_all_rejected (files : List JFile) (σ : PdfSelState)
    (h : ∀ f ∈ files, rejectedFile f) :
    (handleFileSelection files σ).selectedFiles = σ.selectedFiles ∧
    (handleFileSelection files σ).statusMsg = "No supported files selected." ∧
    (handleFileSelection files σ).statusKind = "error" := by
  obtain ⟨h1, h2⟩ := selLoop_all_rejected files h
  dsimp only [handleFileSelection]
  rw [h1, h2]
  simp

/-- C4 (counterexample): when every offered file is rejected, the
working set is NOT cleared: with one previously accepted image in the
working set and a new selection consisting only of an oversized file,
`handleFileSelection` leaves the prior file in the working set (the
claim says the working set becomes empty). -/
theorem C4_counterexample :
    (handleFileSelection
        [⟨"b.png", 20 * 1024 * 1024 + 1, "image/png"⟩]
        ⟨"Detect_automatically", [⟨"a.png", 100, "image/png"⟩], "", "", [], false⟩).selectedFiles
      = [⟨"a.png", 100, "image/png"⟩] ∧
    (handleFileSelection
        [⟨"b.png", 20 * 1024 * 1024 + 1, "image/png"⟩]
        ⟨"Detect_automatically", [⟨"a.png", 100, "image/png"⟩], "", "", [], false⟩).selectedFiles
      ≠ [] ∧
    (handleFileSelection
        [⟨"b.png", 20 * 1024 * 1024 + 1, "image/png"⟩]
        ⟨"Detect_automatically", [⟨"a.png", 100, "image/png"⟩], "", "", [], false⟩).statusKind
      = "error" := by
  refine ⟨by with_unfolding_all rfl, ?_, by with_unfolding_all rfl⟩
  have h1 : (handleFileSelection
      [⟨"b.png", 20 * 1024 * 1024 + 1, "image/png"⟩]
      ⟨"Detect_automatically", [⟨"a.png", 100, "image/png"⟩], "", "", [], false⟩).selectedFiles
    = [⟨"a.png", 100, "image/png"⟩] := by with_unfolding_all rfl
  rw [h1]
  simp

/-- C4 (amended): when every offered file is rejected by validation
(wrong type or over the 20 MB limit), the rejected files are excluded
(none reaches the classified sets), an error status is shown — but the
working set is left as it was, not cleared; likewise the webp converter
leaves its current file untouched and shows an error status. -/
theorem C4_all_rejected_behavior :
    (∀ (files : List JFile) (σ : PdfSelState), (∀ f ∈ files, rejectedFile f) →
      (selLoop files).1 = [] ∧ (selLoop files).2.1 = [] ∧
      (handleFileSelection files σ).selectedFiles = σ.selectedFiles ∧
      (handleFileSelection files σ).statusMsg = "No supported files selected." ∧
      (handleFileSelection files σ).statusKind = "error") ∧
    (∀ (f : JFile) (σ : WebpSelState),
      (f.type ≠ "image/webp" ∧ f.type ≠ "image/png" ∧
       f.type ≠ "image/jpeg" ∧ f.type ≠ "image/gif") ∨ f.size > MAX_SIZE →
      (webpHandleFileSelect f σ).currentFile = σ.currentFile ∧
      (webpHandleFileSelect f σ).statusKind = "error") := by
  constructor
  · intro files σ h
    obtain ⟨h1, h2⟩ := selLoop_all_rejected files h
    obtain ⟨h3, h4, h5⟩ := handleFileSelection_all_rejected files σ h
    exact ⟨h1, h2, h3, h4, h5⟩
  · intro f σ h
    dsimp only [webpHandleFileSelect]
    rcases h with htype | hsz
    · rw [if_pos htype]
      simp
    · by_cases htype2 : f.type ≠ "image/webp" ∧ f.type ≠ "image/png" ∧
          f.type ≠ "image/jpeg" ∧ f.type ≠ "image/gif"
      · rw [if_pos htype2]
        simp
      · rw [if_neg htype2, if_pos hsz]
        simp

/-- C7: a file over the 20 MB limit is never added to the working set
(in the modular image-pdf converter it reaches neither the images nor
the pdfs set, and cannot enter `selectedFiles` unless it was already
there); when the whole selection is rejected the prior working set is
left unchanged; the webp and heic converters likewise keep their
current file unchanged when offered an oversized file. -/
theorem C7_oversize_rejected :
    (∀ (f : JFile) (files : List JFile) (σ : PdfSelState),
      f.size > MAX_SIZE → f ∉ σ.selectedFiles →
      f ∉ (handleFileSelection files σ).selectedFiles) ∧
    (∀ (files : List JFile) (σ : PdfSelState), (∀ f ∈ files, rejectedFile f) →
      (handleFileSelection files σ).selectedFiles = σ.selectedFiles) ∧
    (∀ (f : JFile) (σ : WebpSelState), f.size > MAX_SIZE →
      (webpHandleFileSelect f σ).currentFile = σ.currentFile) ∧
    (∀ (f : JFile) (σ : HeicSelState), f.size > MAX_SIZE →
      (heicHandleFileSelect f σ).currentFile = σ.currentFile) := by
  refine ⟨?_, ?_, ?_, ?_⟩
  · intro f files σ hsz hmem
    obtain ⟨hni, hnp⟩ := selLoop_oversize_not_mem f files hsz
    rcases handleFileSelection_selected_cases files σ with hc | hc | hc <;> rw [hc]
    · exact hmem
    · exact hni
    · exact fun hm => hnp (List.take_subset _ _ hm)
  · intro files σ h
    exact (handleFileSelection_all_rejected files σ h).1
  · intro f σ hsz
    dsimp only [webpHandleFileSelect]
    by_cases h1 : f.type ≠ "image/webp" ∧ f.type ≠ "image/png" ∧
        f.type ≠ "image/jpeg" ∧ f.type ≠ "image/gif"
    · rw [if_pos h1]
    · rw [if_neg h1, if_pos hsz]
  · intro f σ hsz
    dsimp only [heicHandleFileSelect]
    by_cases h1 : f.type ≠ "image/heic" ∧ f.type ≠ "image/heif" ∧
        f.type ≠ "image/jpeg" ∧ f.type ≠ "image/png"
    · rw [if_pos h1]
    · rw [if_neg h1, if_pos hsz]

/-- C4 (witness): the amended theorem applied to a single oversized
file offered on top of a previously selected image. -/
theorem C4_witness :
    (∀ f ∈ [(⟨"b.png", 20 * 1024 * 1024 + 1, "image/png"⟩ : JFile)], rejectedFile f) ∧
    (handleFileSelection [⟨"b.png", 20 * 1024 * 1024 + 1, "image/png"⟩]
        ⟨"Detect_automatically", [⟨"a.png", 100, "image/png"⟩], "", "", [], false⟩).selectedFiles
      = [⟨"a.png", 100, "image/png"⟩] := by
  have hrej : ∀ f ∈ [(⟨"b.png", 20 * 1024 * 1024 + 1, "image/png"⟩ : JFile)], rejectedFile f := by
    intro f hf
    simp only [List.mem_singleton] at hf
    subst hf
    left
    norm_num [MAX_SIZE]
  exact ⟨hrej, ((C4_all_rejected_behavior.1 [⟨"b.png", 20 * 1024 * 1024 + 1, "image/png"⟩]
    ⟨"Detect_automatically", [⟨"a.png", 100, "image/png"⟩], "", "", [], false⟩ hrej).2.2).1⟩

/-! ## Claim C3: object-URL ownership -/

/-- C3 (counterexample): the SVG converter's `showDownload` creates a
new object URL without revoking the previous one: after two successive
successful conversions both references are still live (the claim says
only the most recent remains resolvable). -/
theorem C3_counterexample :
    (svgRenderAndExport true (.ok 1) (svgRenderAndExport true (.ok 0)
        ⟨"", false, false, false, false, true, true, true, none, false, [], ⟨0, []⟩⟩)).urls
      = ⟨2, [1, 0]⟩ ∧
    (svgRenderAndExport true (.ok 1) (svgRenderAndExport true (.ok 0)
        ⟨"", false, false, false, false, true, true, true, none, false, [], ⟨0, []⟩⟩)).downloadHref
      = some 1 := by
  exact ⟨by with_unfolding_all rfl, by with_unfolding_all rfl⟩

/-- C3 (amended): the converters that track a `currentObjectUrl` — the
modular image-pdf converter's `applyDownloadBlob` and the webp
converter's submit handler — revoke the previous object URL before
creating the new one, so at most one result reference is live and after
two successive conversions only the most recent remains resolvable; the
SVG converter's `showDownload` (see the counterexample) never revokes,
so earlier references stay live. -/
theorem C3_revoke_before_replace :
    (∀ σ : PdfModState,
      UrlInv σ.urls.live σ.currentObjectUrl σ.urls.nextId →
      UrlInv (applyDownloadBlob σ).urls.live (applyDownloadBlob σ).currentObjectUrl
        (applyDownloadBlob σ).urls.nextId ∧
      (applyDownloadBlob σ).urls.live.length = 1 ∧
      (∀ u ∈ σ.currentObjectUrl.toList, u ∉ (applyDownloadBlob σ).urls.live)) ∧
    (∀ σ : PdfModState,
      UrlInv σ.urls.live σ.currentObjectUrl σ.urls.nextId →
      (applyDownloadBlob (applyDownloadBlob σ)).urls.live =
        (applyDownloadBlob (applyDownloadBlob σ)).currentObjectUrl.toList ∧
      (applyDownloadBlob (applyDownloadBlob σ)).urls.live.length = 1) ∧
    (∀ (toFormat : String) (canEnc : Bool) (b : Blob) (σ : WebpUiState) (f : JFile),
      σ.currentFile = some f → ¬(toFormat = "webp" ∧ (!canEnc) = true) →
      UrlInv σ.urls.live σ.currentObjectUrl σ.urls.nextId →
      UrlInv (webpSubmit toFormat canEnc (.ok b) σ).urls.live
        (webpSubmit toFormat canEnc (.ok b) σ).currentObjectUrl
        (webpSubmit toFormat canEnc (.ok b) σ).urls.nextId ∧
      (webpSubmit toFormat canEnc (.ok b) σ).urls.live.length = 1 ∧
      (∀ u ∈ σ.currentObjectUrl.toList,
        u ∉ (webpSubmit toFormat canEnc (.ok b) σ).urls.live)) ∧
    (∀ (toFormat : String) (canEnc : Bool) (b1 b2 : Blob) (σ : WebpUiState) (f : JFile),
      σ.currentFile = some f → ¬(toFormat = "webp" ∧ (!canEnc) = true) →
      UrlInv σ.urls.live σ.currentObjectUrl σ.urls.nextId →
      (webpSubmit toFormat canEnc (.ok b2) (webpSubmit toFormat canEnc (.ok b1) σ)).urls.live =
        (webpSubmit toFormat canEnc (.ok b2)
          (webpSubmit toFormat canEnc (.ok b1) σ)).currentObjectUrl.toList ∧
      (webpSubmit toFormat canEnc (.ok b2)
        (webpSubmit toFormat canEnc (.ok b1) σ)).urls.live.length = 1) := by
  have key : ∀ σ : PdfModState,
      UrlInv σ.urls.live σ.currentObjectUrl σ.urls.nextId →
      UrlInv (applyDownloadBlob σ).urls.live (applyDownloadBlob σ).currentObjectUrl
        (applyDownloadBlob σ).urls.nextId ∧
      (applyDownloadBlob σ).urls.live.length = 1 ∧
      (∀ u ∈ σ.currentObjectUrl.toList, u ∉ (applyDownloadBlob σ).urls.live) := by
    intro σ hinv
    obtain ⟨hlive, hbound⟩ := hinv
    cases hcur : σ.currentObjectUrl with
    | none =>
      rw [hcur] at hlive
      simp only [Option.toList] at hlive
      simp only [applyDownloadBlob, hcur, createObjectURL, revokeObjectURL]
      refine ⟨⟨?_, ?_⟩, ?_, ?_⟩
      · simp [hlive]
      · intro u hu
        simp [hlive] at hu
        omega
      · simp [hlive]
      · simp
    | some u =>
      rw [hcur] at hlive
      simp only [Option.toList] at hlive
      have hu : u < σ.urls.nextId := hbound u (by rw [hlive]; simp)
      simp only [applyDownloadBlob, hcur, createObjectURL, revokeObjectURL]
      refine ⟨⟨?_, ?_⟩, ?_, ?_⟩
      · simp [hlive, List.erase_cons_head]
      · intro v hv
        simp [hlive, List.erase_cons_head] at hv
        omega
      · simp [hlive, List.erase_cons_head]
      · intro v hv
        simp only [Option.toList, List.mem_singleton] at hv
        subst hv
        simp [hlive, List.erase_cons_head]
        omega
  have keyW : ∀ (toFormat : String) (canEnc : Bool) (b : Blob) (σ : WebpUiState) (f : JFile),
      σ.currentFile = some f → ¬(toFormat = "webp" ∧ (!canEnc) = true) →
      UrlInv σ.urls.live σ.currentObjectUrl σ.urls.nextId →
      UrlInv (webpSubmit toFormat canEnc (.ok b) σ).urls.live
        (webpSubmit toFormat canEnc (.ok b) σ).currentObjectUrl
        (webpSubmit toFormat canEnc (.ok b) σ).urls.nextId ∧
      (webpSubmit toFormat canEnc (.ok b) σ).urls.live.length = 1 ∧
      (∀ u ∈ σ.currentObjectUrl.toList,
        u ∉ (webpSubmit toFormat canEnc (.ok b) σ).urls.live) ∧
      (webpSubmit toFormat canEnc (.ok b) σ).currentFile = some f := by
    intro toFormat canEnc b σ f hcf hguard hinv
    obtain ⟨hlive, hbound⟩ := hinv
    simp only [Bool.not_eq_true'] at hguard
    cases hcur : σ.currentObjectUrl with
    | none =>
      rw [hcur] at hlive
      simp only [Option.toList] at hlive
      refine ⟨⟨?_, ?_⟩, ?_, ?_, ?_⟩
      · simp [webpSubmit, hcf, hcur, hguard, createObjectURL, revokeObjectURL, hlive]
      · intro u hu
        simp [webpSubmit, hcf, hcur, hguard, createObjectURL, revokeObjectURL, hlive] at hu
        simp [webpSubmit, hcf, hcur, hguard, createObjectURL, revokeObjectURL, hu]
      · simp [webpSubmit, hcf, hcur, hguard, createObjectURL, revokeObjectURL, hlive]
      · simp
      · simp [webpSubmit, hcf, hcur, hguard, createObjectURL, revokeObjectURL]
    | some u =>
      rw [hcur] at hlive
      simp only [Option.toList] at hlive
      have hu : u < σ.urls.nextId := hbound u (by rw [hlive]; simp)
      refine ⟨⟨?_, ?_⟩, ?_, ?_, ?_⟩
      · simp [webpSubmit, hcf, hcur, hguard, createObjectURL, revokeObjectURL, hlive,
          List.erase_cons_head]
      · intro v hv
        simp [webpSubmit, hcf, hcur, hguard, createObjectURL, revokeObjectURL, hlive,
          List.erase_cons_head] at hv
        simp [webpSubmit, hcf, hcur, hguard, createObjectURL, revokeObjectURL, hv]
      · simp [webpSubmit, hcf, hcur, hguard, createObjectURL, revokeObjectURL, hlive,
          List.erase_cons_head]
      · intro v hv
        simp only [Option.toList, List.mem_singleton] at hv
        subst hv
        simp [webpSubmit, hcf, hcur, hguard, createObjectURL, revokeObjectURL, hlive,
          List.erase_cons_head]
        omega
      · simp [webpSubmit, hcf, hcur, hguard, createObjectURL, revokeObjectURL]
  refine ⟨key, fun σ hinv => ?_, ?_, ?_⟩
  · obtain ⟨hinv1, _, _⟩ := key σ hinv
    obtain ⟨⟨hl, _⟩, hlen, _⟩ := key _ hinv1
    exact ⟨hl, hlen⟩
  · intro toFormat canEnc b σ f hcf hguard hinv
    obtain ⟨h1, h2, h3, _⟩ := keyW toFormat canEnc b σ f hcf hguard hinv
    exact ⟨h1, h2, h3⟩
  · intro toFormat canEnc b1 b2 σ f hcf hguard hinv
    obtain ⟨hinv1, _, _, hcf1⟩ := keyW toFormat canEnc b1 σ f hcf hguard hinv
    obtain ⟨⟨hl, _⟩, hlen, _, _⟩ := keyW toFormat canEnc b2 _ f hcf1 hguard hinv1
    exact ⟨hl, hlen⟩

/-- C3 (witness): the amended theorem applied twice from a fresh state
of each of the two covered converters. -/
theorem C3_witness :
    UrlInv ([] : List Nat) none 0 ∧
    (applyDownloadBlob (applyDownloadBlob
        ⟨[], "", "", [], false, false, true, none, none, false, 0, ⟨0, []⟩⟩)).urls.live =
      (applyDownloadBlob (applyDownloadBlob
        ⟨[], "", "", [], false, false, true, none, none, false, 0, ⟨0, []⟩⟩)).currentObjectUrl.toList ∧
    (applyDownloadBlob (applyDownloadBlob
        ⟨[], "", "", [], false, false, true, none, none, false, 0, ⟨0, []⟩⟩)).urls.live.length = 1 ∧
    (webpSubmit "jpg" true (.ok 1) (webpSubmit "jpg" true (.ok 0)
        ⟨some ⟨"a.webp", 10, "image/webp"⟩, "", "", [], false, false, true, none, true,
         none, false, 0, ⟨0, []⟩⟩)).urls.live =
      (webpSubmit "jpg" true (.ok 1) (webpSubmit "jpg" true (.ok 0)
        ⟨some ⟨"a.webp", 10, "image/webp"⟩, "", "", [], false, false, true, none, true,
         none, false, 0, ⟨0, []⟩⟩)).currentObjectUrl.toList ∧
    (webpSubmit "jpg" true (.ok 1) (webpSubmit "jpg" true (.ok 0)
        ⟨some ⟨"a.webp", 10, "image/webp"⟩, "", "", [], false, false, true, none, true,
         none, false, 0, ⟨0, []⟩⟩)).urls.live.length = 1 := by
  have h := C3_revoke_before_replace.2.1
    ⟨[], "", "", [], false, false, true, none, none, false, 0, ⟨0, []⟩⟩ ⟨rfl, by simp⟩
  have hw := C3_revoke_before_replace.2.2.2 "jpg" true 0 1
    ⟨some ⟨"a.webp", 10, "image/webp"⟩, "", "", [], false, false, true, none, true,
     none, false, 0, ⟨0, []⟩⟩ ⟨"a.webp", 10, "image/webp"⟩
    rfl (by decide) ⟨rfl, by simp⟩
  exact ⟨⟨rfl, by simp⟩, h.1, h.2, hw.1, hw.2⟩

/-! ## Claim C6: error paths -/

/-- C6 (counterexample): on a thrown error the SVG converter shows no
failure notification at all and writes `Error: `-prefixed text (not the
message verbatim) into the status area, and the webp converter leaves a
previously published download link visible — all three contradicting
the claim's conjunction. -/
theorem C6_counterexample :
    (svgRenderAndExport true (.error "boom")
        ⟨"", false, false, false, false, true, true, true, none, false, [], ⟨0, []⟩⟩).toasts
      = [] ∧
    (svgRenderAndExport true (.error "boom")
        ⟨"", false, false, false, false, true, true, true, none, false, [], ⟨0, []⟩⟩).statusMsg
      = "Error: boom" ∧
    ("Error: boom" : String) ≠ "boom" ∧
    (webpSubmit "jpg" true (.error "boom")
        ⟨some ⟨"a.webp", 10, "image/webp"⟩, "", "", [], false, false, false, some 0, false,
         some 0, true, 1, ⟨1, [0]⟩⟩).downloadHidden = false := by
  refine ⟨by with_unfolding_all rfl, by with_unfolding_all rfl, by decide,
         by with_unfolding_all rfl⟩

/-- C6 (amended): on a thrown error every dispatcher transitions to the
failed state, but the details differ per converter: the webp and
modular image-pdf converters surface the message verbatim with an
`error` status kind and a generic "Conversion failed." toast while
leaving the download link's visibility untouched; the SVG converter and
the first-variant image-pdf converter prefix the message with `Error: `
and show no toast, and they end with the download link hidden (the SVG
converter hides it before converting, the first-variant image-pdf
converter hides it in the catch). -/
theorem C6_error_paths :
    (∀ (msg : String) (σ : SvgState), msg ≠ "" →
      (svgRenderAndExport true (.error msg) σ).statusMsg = "Error: " ++ msg ∧
      (svgRenderAndExport true (.error msg) σ).toasts = σ.toasts ∧
      (svgRenderAndExport true (.error msg) σ).downloadHidden = true ∧
      (svgRenderAndExport true (.error msg) σ).downloadHref = none) ∧
    (∀ (msg toFormat : String) (canEnc : Bool) (σ : WebpUiState) (f : JFile),
      msg ≠ "" → σ.currentFile = some f → ¬(toFormat = "webp" ∧ (!canEnc) = true) →
      (webpSubmit toFormat canEnc (.error msg) σ).statusMsg = msg ∧
      (webpSubmit toFormat canEnc (.error msg) σ).statusKind = "error" ∧
      (webpSubmit toFormat canEnc (.error msg) σ).toasts =
        σ.toasts ++ [("Conversion failed.", "error")] ∧
      (webpSubmit toFormat canEnc (.error msg) σ).downloadHidden = σ.downloadHidden) ∧
    (∀ (msg : String) (σ : PdfV1State), msg ≠ "" → σ.selectedFiles ≠ [] →
      (pdfV1Submit "image-to-pdf" (.error msg) σ).statusMsg = "Error: " ++ msg ∧
      (pdfV1Submit "image-to-pdf" (.error msg) σ).downloadHidden = true) ∧
    (∀ (msg : String) (σ : PdfModState), msg ≠ "" → σ.selectedFiles ≠ [] →
      (pdfModSubmit false "pdf" (.error msg) σ).statusMsg = msg ∧
      (pdfModSubmit false "pdf" (.error msg) σ).statusKind = "error" ∧
      (pdfModSubmit false "pdf" (.error msg) σ).toasts =
        σ.toasts ++ [("Conversion failed.", "error")] ∧
      (pdfModSubmit false "pdf" (.error msg) σ).downloadHidden = σ.downloadHidden) := by
  refine ⟨?_, ?_, ?_, ?_⟩
  · intro msg σ hmsg
    simp [svgRenderAndExport, setWorking, svgHideDownload, hmsg]
  · intro msg toFormat canEnc σ f hmsg hcur hguard
    simp only [Bool.not_eq_true'] at hguard
    simp [webpSubmit, hcur, hguard, hmsg]
  · intro msg σ hmsg hne
    have hlen : ¬σ.selectedFiles.length = 0 := by
      simpa [List.length_eq_zero] using hne
    simp [pdfV1Submit, toggleLoading, hlen, hmsg]
  · intro msg σ hmsg hne
    have hlen : ¬σ.selectedFiles.length = 0 := by
      simpa [List.length_eq_zero] using hne
    simp [pdfModSubmit, hlen, hmsg]

/-- C6 (witness): the amended theorem's webp part applied at a failing
conversion from a state with a visible previous download link. -/
theorem C6_witness :
    (webpSubmit "jpg" true (.error "boom")
        ⟨some ⟨"a.webp", 10, "image/webp"⟩, "", "", [], false, false, false, some 0, false,
         some 0, true, 1, ⟨1, [0]⟩⟩).statusMsg = "boom" ∧
    (webpSubmit "jpg" true (.error "boom")
        ⟨some ⟨"a.webp", 10, "image/webp"⟩, "", "", [], false, false, false, some 0, false,
         some 0, true, 1, ⟨1, [0]⟩⟩).statusKind = "error" ∧
    (webpSubmit "jpg" true (.error "boom")
        ⟨some ⟨"a.webp", 10, "image/webp"⟩, "", "", [], false, false, false, some 0, false,
         some 0, true, 1, ⟨1, [0]⟩⟩).toasts =
      (⟨some ⟨"a.webp", 10, "image/webp"⟩, "", "", [], false, false, false, some 0, false,
         some 0, true, 1, ⟨1, [0]⟩⟩ : WebpUiState).toasts ++ [("Conversion failed.", "error")] ∧
    (webpSubmit "jpg" true (.error "boom")
        ⟨some ⟨"a.webp", 10, "image/webp"⟩, "", "", [], false, false, false, some 0, false,
         some 0, true, 1, ⟨1, [0]⟩⟩).downloadHidden =
      (⟨some ⟨"a.webp", 10, "image/webp"⟩, "", "", [], false, false, false, some 0, false,
         some 0, true, 1, ⟨1, [0]⟩⟩ : WebpUiState).downloadHidden :=
  C6_error_paths.2.1 "boom" "jpg" true
    ⟨some ⟨"a.webp", 10, "image/webp"⟩, "", "", [], false, false, false, some 0, false,
     some 0, true, 1, ⟨1, [0]⟩⟩ ⟨"a.webp", 10, "image/webp"⟩
    (by decide) rfl (by decide)

/-! ## Claim C8: unconditional cleanup -/

/-- C8: every submission that enters the converting state — whatever
the conversion outcome, success or thrown error — ends with the submit
control re-enabled and the spinner/progress UI hidden, in all four
embedded submit handlers. -/
theorem C8_cleanup_unconditional :
    (∀ (res : Except String Blob) (σ : SvgState),
      (svgRenderAndExport true res σ).convertDisabled = false ∧
      (svgRenderAndExport true res σ).spinnerHidden = true ∧
      (svgRenderAndExport true res σ).progressHidden = true) ∧
    (∀ (toFormat : String) (canEnc : Bool) (res : Except String Blob)
        (σ : WebpUiState) (f : JFile),
      σ.currentFile = some f → ¬(toFormat = "webp" ∧ (!canEnc) = true) →
      (webpSubmit toFormat canEnc res σ).btnLoading = false ∧
      (webpSubmit toFormat canEnc res σ).progressShown = false) ∧
    (∀ (pdfToImages : Bool) (targetFormat : String) (res : Except String Blob)
        (σ : PdfModState),
      σ.selectedFiles ≠ [] →
      (pdfModSubmit pdfToImages targetFormat res σ).btnLoading = false ∧
      (pdfModSubmit pdfToImages targetFormat res σ).progressShown = false) ∧
    (∀ (mode : String) (res : Except String Blob) (σ : PdfV1State),
      σ.selectedFiles ≠ [] →
      (pdfV1Submit mode res σ).convertDisabled = false ∧
      (pdfV1Submit mode res σ).spinnerHidden = true ∧
      (pdfV1Submit mode res σ).progressHidden = true) := by
  refine ⟨?_, ?_, ?_, ?_⟩
  · intro res σ
    cases res <;>
      simp [svgRenderAndExport, setWorking, svgHideDownload, svgShowDownload, createObjectURL]
  · intro toFormat canEnc res σ f hcur hguard
    simp only [Bool.not_eq_true'] at hguard
    cases res <;> simp [webpSubmit, hcur, hguard, createObjectURL, revokeObjectURL]
  · intro pdfToImages targetFormat res σ hne
    have hlen : ¬σ.selectedFiles.length = 0 := by
      simpa [List.length_eq_zero] using hne
    cases res <;>
      simp [pdfModSubmit, applyDownloadBlob, hlen, createObjectURL, revokeObjectURL]
  · intro mode res σ hne
    have hlen : ¬σ.selectedFiles.length = 0 := by
      simpa [List.length_eq_zero] using hne
    cases res <;> simp [pdfV1Submit, toggleLoading, hlen, createObjectURL]

/-- C8 (witness): the theorem applied to a failing webp submission. -/
theorem C8_witness :
    (webpSubmit "jpg" true (.error "x")
        ⟨some ⟨"a.webp", 10, "image/webp"⟩, "", "", [], true, true, true, none, true,
         none, false, 0, ⟨0, []⟩⟩).btnLoading = false ∧
    (webpSubmit "jpg" true (.error "x")
        ⟨some ⟨"a.webp", 10, "image/webp"⟩, "", "", [], true, true, true, none, true,
         none, false, 0, ⟨0, []⟩⟩).progressShown = false :=
  C8_cleanup_unconditional.2.1 "jpg" true (.error "x")
    ⟨some ⟨"a.webp", 10, "image/webp"⟩, "", "", [], true, true, true, none, true,
     none, false, 0, ⟨0, []⟩⟩ ⟨"a.webp", 10, "image/webp"⟩ rfl (by decide)

/-- C7 (witness): the theorem applied to an oversized file against a
webp-converter state with a previously selected file. -/
theorem C7_witness :
    (⟨"big.webp", 20 * 1024 * 1024 + 1, "image/webp"⟩ : JFile).size > MAX_SIZE ∧
    (webpHandleFileSelect ⟨"big.webp", 20 * 1024 * 1024 + 1, "image/webp"⟩
        ⟨some ⟨"ok.webp", 5, "image/webp"⟩, "auto", "", "", [], false⟩).currentFile
      = some ⟨"ok.webp", 5, "image/webp"⟩ := by
  refine ⟨by norm_num [MAX_SIZE], ?_⟩
  exact C7_oversize_rejected.2.2.1 ⟨"big.webp", 20 * 1024 * 1024 + 1, "image/webp"⟩
    ⟨some ⟨"ok.webp", 5, "image/webp"⟩, "auto", "", "", [], false⟩ (by norm_num [MAX_SIZE])

end QuickConvert
